import Mathlib

/-!
Shallow embedding of `src/cursor_setup/main.py` (cursor-setup v2.1.0):
the template registry merge (`get_registry`), the cache store
(`load_from_cache` / `save_to_cache`), content resolution for remote
templates, the destination-file writer (`write_cursorrules`) and the
`install` command.  Python dicts are modelled as association lists with
Python's "last assignment wins" update semantics; file-system and network
effects are modelled by explicit state (`Fs`) plus oracles, and the
observable side effects of a run are collected in an event trace.
-/

namespace CursorSetup

/-- A template descriptor as the Python code sees it: a dict that may carry
a `url` key (remote template), a `content` key (inline template), plus the
`name` / `description` strings used for display. -/
structure Template where
  displayName : String
  descr : String
  url : Option String
  content : Option String
deriving Repr, DecidableEq

/-- A Python dict keyed by strings, as an association list (first match wins
for lookup; `dictSet` replaces in place, preserving uniqueness of keys). -/
abbrev Registry (α : Type) := List (String × α)

/-- Dict lookup: `d[k]` / `k in d`. -/
def rlookup {α : Type} : Registry α → String → Option α
  | [], _ => none
  | (k2, v) :: rest, k => if k2 = k then some v else rlookup rest k

/-- Dict assignment `d[k] = v`: replace the binding for `k` in place, or
append a new binding. -/
def dictSet {α : Type} : Registry α → String → α → Registry α
  | [], k, v => [(k, v)]
  | (k2, v2) :: rest, k, v =>
    if k2 = k then (k2, v) :: rest else (k2, v2) :: dictSet rest k v

/-- `d1.update(d2)` where `d2` is a dict: assign every binding of `d2` into
`d1`, left to right. -/
def dictUpdate {α : Type} (r m : Registry α) : Registry α :=
  m.foldl (fun acc kv => dictSet acc kv.1 kv.2) r

/-- One element of a sequence passed to `dict.update`: a well-formed
key/value pair, an element of the wrong length (Python raises `ValueError`),
or a non-sequence element (Python raises `TypeError`). -/
inductive UpdItem (α : Type) where
  | pair : String → α → UpdItem α
  | badLen : UpdItem α
  | nonSeq : UpdItem α
deriving Repr

/-- The error raised part-way through `dict.update` on a sequence. -/
inductive SeqErr where
  | valueError
  | typeError
deriving Repr, DecidableEq

/-- A Python exception that escapes the embedded function uncaught. -/
inductive PyErr where
  | typeError
deriving Repr, DecidableEq

/-- `dict.update` on a sequence argument: CPython mutates the dict element
by element and raises at the first malformed element, leaving the earlier
insertions in place.  Returns the (possibly partially updated) dict and the
raised error, if any. -/
def dictUpdateSeq {α : Type} : Registry α → List (UpdItem α) → Registry α × Option SeqErr
  | r, [] => (r, none)
  | r, .pair k v :: rest => dictUpdateSeq (dictSet r k v) rest
  | r, .badLen :: _ => (r, some .valueError)
  | r, .nonSeq :: _ => (r, some .typeError)

/-- The value found under `data["templates"]`, as far as `dict.update`
distinguishes it: a dict, a sequence of elements, or a non-iterable value
(on which `dict.update` raises `TypeError`). -/
inductive TVal (α : Type) where
  | mapping : Registry α → TVal α
  | pairSeq : List (UpdItem α) → TVal α
  | notIterable : TVal α
deriving Repr

/-- The parsed JSON body of the registry response, as far as the code
inspects it: not a dict, a dict without a `"templates"` key, or a dict
whose `"templates"` key holds `v`. -/
inductive RemoteDoc (α : Type) where
  | notDict : RemoteDoc α
  | dictNoTemplates : RemoteDoc α
  | dictTemplates : TVal α → RemoteDoc α
deriving Repr

/-- Outcome of `requests.get(REMOTE_REGISTRY_URL)` + `raise_for_status()` +
`response.json()`: a `requests.RequestException` (network error, timeout or
non-success status), a `ValueError` from JSON parsing, or a parsed body. -/
inductive RemoteFetch (α : Type) where
  | netError : RemoteFetch α
  | parseError : RemoteFetch α
  | body : RemoteDoc α → RemoteFetch α
deriving Repr

/-- `get_registry`: start from the bundled `TEMPLATES` copy, try the remote
fetch, validate `isinstance(data, dict) and "templates" in data`, then
`all_templates.update(data["templates"])`.  The `except` clause catches
`requests.RequestException`, `ValueError` and `KeyError` — but not
`TypeError`, which therefore escapes to the caller; and a `ValueError`
raised part-way through `update` is caught after the dict has already been
partially mutated, so the partial merge is returned. -/
def get_registry {α : Type} (bundled : Registry α) (remote : RemoteFetch α) :
    Except PyErr (Registry α) :=
  match remote with
  | .netError => .ok bundled
  | .parseError => .ok bundled
  | .body .notDict => .ok bundled
  | .body .dictNoTemplates => .ok bundled
  | .body (.dictTemplates (.mapping m)) => .ok (dictUpdate bundled m)
  | .body (.dictTemplates (.pairSeq items)) =>
    match dictUpdateSeq bundled items with
    | (r, none) => .ok r
    | (r, some .valueError) => .ok r
    | (_, some .typeError) => .error .typeError
  | .body (.dictTemplates .notIterable) => .error .typeError

/-- The hard-coded remote registry URL. -/
def REMOTE_REGISTRY_URL : String :=
  "https://raw.githubusercontent.com/ThanhNguyxn/cursor-setup/main/rules.json"

/-- Local file-system state plus error oracles: the cache directory as a map
from template name to file content, per-key read/write `OSError` oracles,
and the `.cursorrules` destination file in the current working directory. -/
structure Fs where
  cache : Registry String
  cacheReadFail : String → Bool
  cacheWriteFail : String → Bool
  dest : Option String
  destWriteFail : Bool

/-- One observable side effect of a run. -/
inductive Event where
  | fetch : String → Event
  | cacheRead : String → Event
  | cacheWrite : String → Event
  | destWrite : Event
deriving Repr, DecidableEq

/-- `load_from_cache`: if the cache file exists, read it, mapping an
`OSError` to `None`; if it does not exist, return `None`. -/
def load_from_cache (fs : Fs) (name : String) : Option String :=
  match rlookup fs.cache name with
  | some c => if fs.cacheReadFail name then none else some c
  | none => none

/-- `save_to_cache`: best-effort write of the cache file; an `OSError`
(from `ensure_cache_dir` or `write_text`) is swallowed, leaving the
file system unchanged. -/
def save_to_cache (fs : Fs) (name : String) (content : String) : Fs :=
  if fs.cacheWriteFail name then fs
  else { fs with cache := dictSet fs.cache name content }

/-- Python truthiness of an `Optional[str]`: `None` and `""` are falsy. -/
def pyTruthy : Option String → Bool
  | none => false
  | some s => !(s = "")

/-- Process-exit outcome of a command. -/
inductive ExitKind where
  | success
  | exit0
  | exit1
  | pyError
deriving Repr, DecidableEq

/-- `write_cursorrules`: if `.cursorrules` exists and `force` is false, ask
for confirmation (`confirm` is the user's answer); a decline raises
`typer.Exit(code=0)` without touching the file.  Otherwise write the file,
mapping an `OSError` to `typer.Exit(code=1)`. -/
def write_cursorrules (content : String) (force : Bool) (confirm : Bool) (fs : Fs) :
    ExitKind × Fs × List Event :=
  if fs.dest.isSome && !force && !confirm then
    (.exit0, fs, [])
  else if fs.destWriteFail then
    (.exit1, fs, [.destWrite])
  else
    (.success, { fs with dest := some content }, [.destWrite])

/-- The remote-template content-resolution protocol inside `install` (the
`"url" in template` branch): unless `--no-cache` was given, try the cache
and accept a truthy (nonempty) hit; otherwise fetch from the template's
URL, saving to the cache on success; on a `requests.RequestException`,
fall back to the cache even if `--no-cache` was given, accepting only a
truthy value, and fail otherwise. -/
def resolve_remote (name turl : String) (no_cache : Bool)
    (net : String → Except Unit String) (fs : Fs) :
    Except Unit (String × Fs) × List Event :=
  let hit : Option String :=
    if no_cache then none
    else match load_from_cache fs name with
      | some c => if c = "" then none else some c
      | none => none
  let ev0 : List Event := if no_cache then [] else [.cacheRead name]
  match hit with
  | some c => (.ok (c, fs), ev0)
  | none =>
    match net turl with
    | .ok t => (.ok (t, save_to_cache fs name t), ev0 ++ [.fetch turl, .cacheWrite name])
    | .error _ =>
      match load_from_cache fs name with
      | some c =>
        if c = "" then (.error (), ev0 ++ [.fetch turl, .cacheRead name])
        else (.ok (c, fs), ev0 ++ [.fetch turl, .cacheRead name])
      | none => (.error (), ev0 ++ [.fetch turl, .cacheRead name])

/-- The `install` command.  `name?` / `url?` are the CLI argument and the
`--url` option; `bundled` is the `TEMPLATES` mapping; `remote` is the
registry-fetch outcome; `net` maps a URL to the result of
`download_from_url`; `confirm` is the user's answer to an overwrite
prompt.  Returns the exit outcome, the final file-system state, and the
trace of side effects in order. -/
def install (name? url? : Option String) (force no_cache : Bool)
    (bundled : Registry Template) (remote : RemoteFetch Template)
    (net : String → Except Unit String) (confirm : Bool) (fs : Fs) :
    ExitKind × Fs × List Event :=
  if pyTruthy url? && pyTruthy name? then
    (.exit1, fs, [])
  else if !pyTruthy url? && !pyTruthy name? then
    (.exit1, fs, [])
  else if pyTruthy url? then
    let url := url?.getD ""
    match net url with
    | .error _ => (.exit1, fs, [.fetch url])
    | .ok content =>
      let w := write_cursorrules content force confirm fs
      (w.1, w.2.1, .fetch url :: w.2.2)
  else
    let name := name?.getD ""
    match get_registry bundled remote with
    | .error _ => (.pyError, fs, [.fetch REMOTE_REGISTRY_URL])
    | .ok all_templates =>
      match rlookup all_templates name with
      | none => (.exit1, fs, [.fetch REMOTE_REGISTRY_URL])
      | some template =>
        match template.url with
        | some turl =>
          match resolve_remote name turl no_cache net fs with
          | (.error _, evs) => (.exit1, fs, .fetch REMOTE_REGISTRY_URL :: evs)
          | (.ok (content, fs2), evs) =>
            let w := write_cursorrules content force confirm fs2
            (w.1, w.2.1, .fetch REMOTE_REGISTRY_URL :: (evs ++ w.2.2))
        | none =>
          match template.content with
          | some c =>
            let w := write_cursorrules c force confirm fs
            (w.1, w.2.1, .fetch REMOTE_REGISTRY_URL :: w.2.2)
          | none => (.pyError, fs, [.fetch REMOTE_REGISTRY_URL])

/-! Fixtures used to instantiate the theorems at concrete inputs. -/

/-- A network oracle on which every request fails. -/
def netFail : String → Except Unit String := fun _ => .error ()

/-- A network oracle on which every request returns body `s`. -/
def netConst (s : String) : String → Except Unit String := fun _ => .ok s

/-- A file system with an empty cache, no destination file and no I/O
errors. -/
def fsBase : Fs :=
  { cache := []
    cacheReadFail := fun _ => false
    cacheWriteFail := fun _ => false
    dest := none
    destWriteFail := false }

/-- A remote template descriptor pointing at URL `u`. -/
def remoteTemplate (u : String) : Template :=
  { displayName := "Sample", descr := "sample", url := some u, content := none }

/-- An inline template descriptor carrying content `c`. -/
def inlineTemplate (c : String) : Template :=
  { displayName := "Sample", descr := "sample", url := none, content := some c }

/-- A small bundled registry: an inline `python` template and a remote
`react` template. -/
def bundledSample : Registry Template :=
  [("python", inlineTemplate "# Python rules"), ("react", remoteTemplate "https://x/react")]

/-- A file system whose cache holds an empty-string entry for `react`. -/
def fsCE : Fs := { fsBase with cache := [("react", "")] }

/-- A file system whose cache holds a nonempty entry for `react`. -/
def fsCN : Fs := { fsBase with cache := [("react", "# React rules v1")] }

/-- A file system whose destination file already exists with content
`old`. -/
def fsD : Fs := { fsBase with dest := some "old" }

/-- Recognize a network-fetch event. -/
def isFetch : Event → Bool
  | .fetch _ => true
  | _ => false

/-! Dictionary lemmas. -/

/-- Lookup after in-place assignment. -/
theorem rlookup_dictSet {α : Type} (r : Registry α) (k k' : String) (v : α) :
    rlookup (dictSet r k v) k' = if k = k' then some v else rlookup r k' := by
  induction r with
  | nil => simp [dictSet, rlookup]
  | cons hd tl ih =>
    obtain ⟨k2, v2⟩ := hd
    by_cases h2 : k2 = k
    · subst h2
      by_cases h3 : k2 = k'
      · subst h3; simp [dictSet, rlookup]
      · simp [dictSet, rlookup, h3]
    · by_cases h3 : k2 = k'
      · subst h3
        have hne : ¬ k = k2 := fun h => h2 h.symm
        simp [dictSet, rlookup, h2, hne]
      · simp [dictSet, rlookup, h2, h3, ih]

/-- A key absent from the key list looks up to `none`. -/
theorem rlookup_eq_none_of_not_mem {α : Type} (m : Registry α) (k : String)
    (h : k ∉ m.map Prod.fst) : rlookup m k = none := by
  induction m with
  | nil => rfl
  | cons hd tl ih =>
    obtain ⟨k2, v2⟩ := hd
    simp only [List.map_cons, List.mem_cons] at h
    push_neg at h
    have h2 : ¬ k2 = k := fun he => h.1 he.symm
    simp [rlookup, h2, ih h.2]

/-- `dict.update` leaves keys absent from the argument unchanged. -/
theorem rlookup_dictUpdate_of_none {α : Type} (m : Registry α) (r : Registry α)
    (k : String) (h : rlookup m k = none) :
    rlookup (dictUpdate r m) k = rlookup r k := by
  induction m generalizing r with
  | nil => rfl
  | cons hd tl ih =>
    obtain ⟨k2, v2⟩ := hd
    simp only [rlookup] at h
    by_cases h2 : k2 = k
    · simp [h2] at h
    · rw [if_neg h2] at h
      show rlookup (dictUpdate (dictSet r k2 v2) tl) k = rlookup r k
      rw [ih (dictSet r k2 v2) h, rlookup_dictSet, if_neg h2]

/-- `dict.update` with a duplicate-free argument installs exactly the
argument's bindings. -/
theorem rlookup_dictUpdate_of_some {α : Type} (m : Registry α) (r : Registry α)
    (k : String) (v : α) (hnd : (m.map Prod.fst).Nodup)
    (h : rlookup m k = some v) : rlookup (dictUpdate r m) k = some v := by
  induction m generalizing r with
  | nil => simp [rlookup] at h
  | cons hd tl ih =>
    obtain ⟨k2, v2⟩ := hd
    simp only [List.map_cons, List.nodup_cons] at hnd
    simp only [rlookup] at h
    by_cases h2 : k2 = k
    · have hv : v2 = v := by
        rw [if_pos h2] at h
        exact Option.some.inj h
      have htl : rlookup tl k = none := by
        apply rlookup_eq_none_of_not_mem
        rw [← h2]
        exact hnd.1
      show rlookup (dictUpdate (dictSet r k2 v2) tl) k = some v
      rw [rlookup_dictUpdate_of_none tl _ _ htl, rlookup_dictSet, if_pos h2, hv]
    · rw [if_neg h2] at h
      exact ih (dictSet r k2 v2) hnd.2 h

/-! Helper lemmas about the destination writer. -/

/-- `write_cursorrules` never touches the cache. -/
theorem write_cursorrules_cache (content : String) (force confirm : Bool) (fs : Fs) :
    (write_cursorrules content force confirm fs).2.1.cache = fs.cache := by
  unfold write_cursorrules
  split_ifs <;> rfl

/-- `write_cursorrules` emits no events or a single destination write. -/
theorem write_cursorrules_events (content : String) (force confirm : Bool) (fs : Fs) :
    (write_cursorrules content force confirm fs).2.2 = [] ∨
    (write_cursorrules content force confirm fs).2.2 = [.destWrite] := by
  unfold write_cursorrules
  split_ifs <;> simp

/-! Claim theorems. -/

/-- C1 counterexample: a cache entry for `react` exists (holding the empty
string), the forced re-fetch fails, and yet resolution fails instead of
returning the cached text — Python's truthiness test `if cached_content:`
rejects the empty cached value. -/
theorem claim1_counterexample :
    load_from_cache fsCE "react" = some "" ∧
    (resolve_remote "react" "u" true netFail fsCE).1 = .error () :=
  ⟨rfl, rfl⟩

/-- C1 (amended): for every name-based resolution of a remote template
whose network fetch fails, the resolver reads the cache for the key
regardless of whether `--no-cache` was requested, and if a readable,
nonempty cached value exists it returns that cached text instead of
failing. -/
theorem claim1_fallback_nonempty (name turl c : String) (no_cache : Bool)
    (net : String → Except Unit String) (fs : Fs)
    (hnet : net turl = .error ()) (hc : load_from_cache fs name = some c)
    (hne : c ≠ "") :
    (resolve_remote name turl no_cache net fs).1 = .ok (c, fs) ∧
    Event.cacheRead name ∈ (resolve_remote name turl no_cache net fs).2 := by
  cases no_cache with
  | true => simp [resolve_remote, hnet, hc, hne]
  | false => simp [resolve_remote, hnet, hc, hne]

/-- Witness for C1 (amended) at a concrete input. -/
theorem claim1_fallback_nonempty_witness :
    (resolve_remote "react" "u" true netFail fsCN).1 = .ok ("# React rules v1", fsCN) ∧
    Event.cacheRead "react" ∈ (resolve_remote "react" "u" true netFail fsCN).2 :=
  claim1_fallback_nonempty "react" "u" "# React rules v1" true netFail fsCN rfl rfl
    (by decide)

/-- C2: the registry fetch is not exception-free for every malformed remote
body.  If the parsed body is a dict whose `"templates"` value is not
iterable (e.g. `{"templates": 0}`), or a sequence containing a non-sequence
element, `dict.update` raises `TypeError`, which the
`except (RequestException, ValueError, KeyError)` clause does not catch, so
`get_registry` raises to its caller; and if `update` raises a (caught)
`ValueError` part-way through a sequence, the partially overlaid registry
is returned, violating whole-document-or-nothing acceptance. -/
theorem claim2_registry_typeerror_escapes {α : Type} (bundled : Registry α)
    (k : String) (v : α) :
    get_registry bundled (.body (.dictTemplates .notIterable)) = .error .typeError ∧
    get_registry bundled (.body (.dictTemplates (.pairSeq [.pair k v, .nonSeq]))) =
      .error .typeError ∧
    get_registry bundled (.body (.dictTemplates (.pairSeq [.pair k v, .badLen]))) =
      .ok (dictSet bundled k v) :=
  ⟨rfl, rfl, rfl⟩

/-- C3 counterexample: a cache entry for `react` is present (holding the
empty string), `--no-cache` is not requested, and yet a network fetch is
performed — the empty cached text is not returned. -/
theorem claim3_counterexample :
    load_from_cache fsCE "react" = some "" ∧
    Event.fetch "u" ∈ (resolve_remote "react" "u" false (netConst "X") fsCE).2 :=
  ⟨rfl, by decide⟩

/-- C3 (amended): for every name-based resolution of a remote template with
`--no-cache` not requested, if a readable, nonempty cache entry is present
for the key then the cached text is returned immediately and no network
fetch is performed. -/
theorem claim3_cache_hit_no_fetch (name turl c : String)
    (net : String → Except Unit String) (fs : Fs)
    (hc : load_from_cache fs name = some c) (hne : c ≠ "") :
    (resolve_remote name turl false net fs).1 = .ok (c, fs) ∧
    ∀ u, Event.fetch u ∉ (resolve_remote name turl false net fs).2 := by
  simp [resolve_remote, hc, hne]

/-- Witness for C3 (amended) at a concrete input. -/
theorem claim3_cache_hit_no_fetch_witness :
    (resolve_remote "react" "u" false netFail fsCN).1 = .ok ("# React rules v1", fsCN) :=
  (claim3_cache_hit_no_fetch "react" "u" "# React rules v1" netFail fsCN rfl
    (by decide)).1

/-- C4 counterexample: the fetch succeeds with the empty string, which is
persisted to the cache, yet a subsequent resolution of the same key with no
network access fails instead of returning the (empty) fetched text. -/
theorem claim4_counterexample :
    (resolve_remote "react" "u" false (netConst "") fsBase).1 =
      .ok ("", save_to_cache fsBase "react" "") ∧
    rlookup (save_to_cache fsBase "react" "").cache "react" = some "" ∧
    (resolve_remote "react" "u" false netFail (save_to_cache fsBase "react" "")).1 =
      .error () :=
  ⟨rfl, rfl, rfl⟩

/-- C4 (amended): for every successful network fetch of nonempty text
during name-based resolution of a remote template — whether the fetch was
reached because cache bypass (`--no-cache`) was requested, or because the
cache had no entry for the key, or only an empty one — if the cache write
succeeds then the fetched text is persisted under the template's key before
being returned, and a subsequent resolution of the same key with no network
access returns that identical text from cache without any fetch. -/
theorem claim4_write_through (name turl t : String) (no_cache : Bool)
    (net net' : String → Except Unit String) (fs : Fs)
    (hnet : net turl = .ok t) (ht : t ≠ "")
    (hmiss : no_cache = true ∨ load_from_cache fs name = none ∨
      load_from_cache fs name = some "")
    (hw : fs.cacheWriteFail name = false) (hr : fs.cacheReadFail name = false) :
    (resolve_remote name turl no_cache net fs).1 = .ok (t, save_to_cache fs name t) ∧
    load_from_cache (save_to_cache fs name t) name = some t ∧
    (resolve_remote name turl false net' (save_to_cache fs name t)).1 =
      .ok (t, save_to_cache fs name t) ∧
    ∀ u, Event.fetch u ∉ (resolve_remote name turl false net' (save_to_cache fs name t)).2 := by
  have hsave : save_to_cache fs name t = { fs with cache := dictSet fs.cache name t } := by
    simp [save_to_cache, hw]
  have hload2 : load_from_cache (save_to_cache fs name t) name = some t := by
    rw [hsave]
    simp [load_from_cache, rlookup_dictSet, hr]
  have hfirst : (resolve_remote name turl no_cache net fs).1 =
      .ok (t, save_to_cache fs name t) := by
    rcases hmiss with h | h | h
    · subst h
      simp [resolve_remote, hnet]
    · cases no_cache <;> simp [resolve_remote, h, hnet]
    · cases no_cache <;> simp [resolve_remote, h, hnet]
  refine ⟨hfirst, hload2, ?_, ?_⟩
  · simp [resolve_remote, hload2, ht]
  · simp [resolve_remote, hload2, ht]

/-- Witness for C4 (amended) at a concrete input, via the bypass path. -/
theorem claim4_write_through_witness :
    (resolve_remote "react" "u" true (netConst "# React rules v1") fsBase).1 =
      .ok ("# React rules v1", save_to_cache fsBase "react" "# React rules v1") :=
  (claim4_write_through "react" "u" "# React rules v1" true
    (netConst "# React rules v1") netFail fsBase rfl (by decide) (Or.inl rfl)
    rfl rfl).1

/-- C5: for a structurally accepted remote registry document (a dict whose
`"templates"` value is a dict), the merged registry maps every key bound in
the remote mapping to its remote descriptor, and every other key to its
bundled descriptor. -/
theorem claim5_merge_precedence (bundled m : Registry Template) (k : String)
    (hnd : (m.map Prod.fst).Nodup) :
    get_registry bundled (.body (.dictTemplates (.mapping m))) = .ok (dictUpdate bundled m) ∧
    (∀ v, rlookup m k = some v → rlookup (dictUpdate bundled m) k = some v) ∧
    (rlookup m k = none → rlookup (dictUpdate bundled m) k = rlookup bundled k) := by
  refine ⟨rfl, ?_, ?_⟩
  · intro v hv
    exact rlookup_dictUpdate_of_some m bundled k v hnd hv
  · intro h
    exact rlookup_dictUpdate_of_none m bundled k h

/-- Witness for C5 at a concrete input: `react` is present in both and the
remote descriptor wins; `python` is only bundled and survives. -/
theorem claim5_merge_precedence_witness :
    rlookup (dictUpdate bundledSample [("react", remoteTemplate "https://y/react")])
      "react" = some (remoteTemplate "https://y/react") :=
  (claim5_merge_precedence bundledSample [("react", remoteTemplate "https://y/react")]
    "react" (by decide)).2.1 _ rfl

/-- C6: for every name-based resolution of a remote template where the
network fetch fails and no cache entry exists for the key, `install` exits
with code 1, leaves the file system untouched, and never writes the
destination file. -/
theorem claim6_no_fallback_failure (bundled : Registry Template)
    (name turl : String) (tmpl : Template) (net : String → Except Unit String)
    (fs : Fs) (force no_cache confirm : Bool)
    (hn : name ≠ "") (hreg : rlookup bundled name = some tmpl)
    (hurl : tmpl.url = some turl) (hnet : net turl = .error ())
    (hmiss : rlookup fs.cache name = none) :
    (install (some name) none force no_cache bundled .netError net confirm fs).1 =
      .exit1 ∧
    (install (some name) none force no_cache bundled .netError net confirm fs).2.1 = fs ∧
    Event.destWrite ∉
      (install (some name) none force no_cache bundled .netError net confirm fs).2.2 := by
  have hload : load_from_cache fs name = none := by
    simp [load_from_cache, hmiss]
  have hres : resolve_remote name turl no_cache net fs =
      (.error (), (if no_cache then [] else [.cacheRead name]) ++
        [.fetch turl, .cacheRead name]) := by
    cases no_cache <;> simp [resolve_remote, hload, hnet]
  cases no_cache <;>
    simp [install, pyTruthy, hn, get_registry, hreg, hurl, hres]

/-- Witness for C6 at a concrete input. -/
theorem claim6_no_fallback_failure_witness :
    (install (some "react") none false true bundledSample .netError netFail false
      fsBase).1 = .exit1 :=
  (claim6_no_fallback_failure bundledSample "react" "https://x/react"
    (remoteTemplate "https://x/react") netFail fsBase false true false
    (by decide) rfl rfl rfl rfl).1

/-- C7: if the destination file already exists and `force` is false, the
user is asked and a declined confirmation leaves the file unchanged,
performs no write, and terminates with exit code 0 (success), not an
error. -/
theorem claim7_decline_is_noop_success (content d : String) (fs : Fs)
    (hdest : fs.dest = some d) :
    write_cursorrules content false false fs = (.exit0, fs, []) := by
  simp [write_cursorrules, hdest]

/-- Witness for C7 at a concrete input. -/
theorem claim7_decline_is_noop_success_witness :
    write_cursorrules "new" false false fsD = (.exit0, fsD, []) :=
  claim7_decline_is_noop_success "new" "old" fsD rfl

/-- C8: installing a template whose descriptor has no `url` field returns
the embedded content directly: the cache is neither read nor written and
the destination file ends up holding exactly the embedded text. -/
theorem claim8_inline_no_cache (bundled : Registry Template) (name c : String)
    (tmpl : Template) (net : String → Except Unit String) (fs : Fs)
    (force no_cache confirm : Bool)
    (hn : name ≠ "") (hreg : rlookup bundled name = some tmpl)
    (hurl : tmpl.url = none) (hc : tmpl.content = some c)
    (hdest : fs.dest = none) (hwf : fs.destWriteFail = false) :
    install (some name) none force no_cache bundled .netError net confirm fs =
      (.success, { fs with dest := some c },
        [.fetch REMOTE_REGISTRY_URL, .destWrite]) ∧
    (install (some name) none force no_cache bundled .netError net confirm fs).2.1.cache =
      fs.cache ∧
    ∀ k, Event.cacheRead k ∉
        (install (some name) none force no_cache bundled .netError net confirm fs).2.2 ∧
      Event.cacheWrite k ∉
        (install (some name) none force no_cache bundled .netError net confirm fs).2.2 := by
  have heq : install (some name) none force no_cache bundled .netError net confirm fs =
      (.success, { fs with dest := some c },
        [.fetch REMOTE_REGISTRY_URL, .destWrite]) := by
    simp [install, pyTruthy, hn, get_registry, hreg, hurl, hc, write_cursorrules,
      hdest, hwf]
  refine ⟨heq, ?_, ?_⟩
  · rw [heq]
  · intro k
    rw [heq]
    simp

/-- Witness for C8 at a concrete input. -/
theorem claim8_inline_no_cache_witness :
    install (some "python") none false false bundledSample .netError netFail true
      fsBase =
      (.success, { fsBase with dest := some "# Python rules" },
        [.fetch REMOTE_REGISTRY_URL, .destWrite]) :=
  (claim8_inline_no_cache bundledSample "python" "# Python rules"
    (inlineTemplate "# Python rules") netFail fsBase false false true
    (by decide) rfl rfl rfl rfl rfl).1

/-- C9: a direct-URL install performs exactly one fetch, never reads or
writes the cache, and a fetch failure terminates with exit code 1, an
unchanged file system, and no destination write. -/
theorem claim9_url_mode (url : String) (net : String → Except Unit String)
    (bundled : Registry Template) (remote : RemoteFetch Template) (fs : Fs)
    (force no_cache confirm : Bool) (hu : url ≠ "") :
    ((install none (some url) force no_cache bundled remote net confirm fs).2.2).filter
      isFetch = [.fetch url] ∧
    (∀ k, Event.cacheRead k ∉
        (install none (some url) force no_cache bundled remote net confirm fs).2.2 ∧
      Event.cacheWrite k ∉
        (install none (some url) force no_cache bundled remote net confirm fs).2.2) ∧
    (install none (some url) force no_cache bundled remote net confirm fs).2.1.cache =
      fs.cache ∧
    (net url = .error () →
      install none (some url) force no_cache bundled remote net confirm fs =
        (.exit1, fs, [.fetch url])) := by
  cases hnet : net url with
  | error e =>
    simp [install, pyTruthy, hu, hnet, isFetch]
  | ok content =>
    have heq : install none (some url) force no_cache bundled remote net confirm fs =
        ((write_cursorrules content force confirm fs).1,
          (write_cursorrules content force confirm fs).2.1,
          .fetch url :: (write_cursorrules content force confirm fs).2.2) := by
      simp [install, pyTruthy, hu, hnet]
    rcases write_cursorrules_events content force confirm fs with hev | hev <;>
      rw [heq] <;>
      refine ⟨?_, ?_, ?_, ?_⟩ <;>
      simp [hev, isFetch, write_cursorrules_cache, hnet]

/-- Witness for C9 at a concrete input. -/
theorem claim9_url_mode_witness :
    install none (some "https://x/custom") false false bundledSample .netError netFail
      true fsBase = (.exit1, fsBase, [.fetch "https://x/custom"]) :=
  (claim9_url_mode "https://x/custom" netFail bundledSample .netError fsBase
    false false true (by decide)).2.2.2 rfl

/-- C10 counterexample: `install python --url ""` supplies both a template
name and a `--url` value, yet the command does not exit with code 1 before
doing work — the empty `--url` string is falsy, so the both-given check is
skipped and a full name-based install runs, including the registry
fetch. -/
theorem claim10_counterexample :
    (install (some "python") (some "") false false bundledSample .netError netFail
      true fsBase).1 ≠ .exit1 ∧
    Event.fetch REMOTE_REGISTRY_URL ∈
      (install (some "python") (some "") false false bundledSample .netError netFail
        true fsBase).2.2 :=
  ⟨by decide, by decide⟩

/-- C10 (amended): for every invocation of `install` where both a nonempty
template name and a nonempty `--url` are given, or where neither is given,
the command exits with code 1 with no network fetch, no cache access, and
no destination write. -/
theorem claim10_arg_validation (name url : String)
    (bundled : Registry Template) (remote : RemoteFetch Template)
    (net : String → Except Unit String) (fs : Fs) (force no_cache confirm : Bool)
    (hn : name ≠ "") (hu : url ≠ "") :
    install (some name) (some url) force no_cache bundled remote net confirm fs =
      (.exit1, fs, []) ∧
    install none none force no_cache bundled remote net confirm fs =
      (.exit1, fs, []) := by
  constructor
  · simp [install, pyTruthy, hn, hu]
  · simp [install, pyTruthy]

/-- Witness for C10 (amended) at a concrete input. -/
theorem claim10_arg_validation_witness :
    install (some "python") (some "https://x/custom") false false bundledSample
      .netError netFail true fsBase = (.exit1, fsBase, []) :=
  (claim10_arg_validation "python" "https://x/custom" bundledSample .netError netFail
    fsBase false false true (by decide) (by decide)).1

end CursorSetup
